import Mathlib

/-
Shallow embedding of `src/py/samples/ollama-hello/src/hello.py`: a sample
client that configures an Ollama plugin with two chat models, registers one
arithmetic tool, and declares three async flows that each send one generate
request to the model backend.  Effects (outbound generate requests, printed
lines, raised exceptions) are made explicit: a flow is a function from a
backend to the list of requests it sent, the lines it printed, and either a
result or the Python exception it raised.
-/

namespace Hello

/-! ## Plugin configuration (hello.py lines 22-55) -/

/-- API style tag of a model definition (`OllamaAPITypes`). -/
inductive OllamaAPITypes where
  | chat
  | generate
deriving Repr, DecidableEq

/-- `ModelDefinition`: a model name and an API style tag. -/
structure ModelDefinition where
  name : String
  api_type : OllamaAPITypes
deriving Repr, DecidableEq

/-- `OllamaPluginParams`: the list of models the plugin exposes. -/
structure OllamaPluginParams where
  models : List ModelDefinition
deriving Repr, DecidableEq

/-- hello.py line 29. -/
def GEMMA_MODEL : String := "gemma2:latest"

/-- hello.py line 33. -/
def MISTRAL_MODEL : String := "mistral-nemo:latest"

/-- hello.py lines 35-46: both models registered with the chat API type. -/
def plugin_params : OllamaPluginParams :=
  { models :=
      [ { name := GEMMA_MODEL, api_type := OllamaAPITypes.chat },
        { name := MISTRAL_MODEL, api_type := OllamaAPITypes.chat } ] }

/-- Modelled from the spec: `ollama_name` is imported from the
`genkit.plugins.ollama` package, whose code is not in this repository; it
tags a bare model name as belonging to the ollama plugin, producing the
model identifier the framework routes requests by. -/
def ollama_name (name : String) : String := "ollama/" ++ name

/-- The part of the `Genkit` instance configuration the flows observe:
the default model set at hello.py line 54. -/
structure GenkitConfig where
  default_model : String
deriving Repr, DecidableEq

/-- hello.py lines 48-55: the `ai` instance, default model gemma2. -/
def ai : GenkitConfig := { default_model := ollama_name GEMMA_MODEL }

/-! ## Message and request data model -/

/-- `Role` from `genkit.core.typing`. -/
inductive Role where
  | system
  | user
  | model
  | tool
deriving Repr, DecidableEq

/-- `TextPart`: a text-only content part.  In genkit each content entry is a
pydantic RootModel wrapper, so Python reads `part.root.text`; the wrapper
adds nothing and is flattened here. -/
structure TextPart where
  text : String
deriving Repr, DecidableEq

/-- `Message`: a role tag and a sequence of (text-only) content parts. -/
structure Message where
  role : Role
  content : List TextPart
deriving Repr, DecidableEq

/-- Which pydantic output schema a generate call requests, if any. -/
inductive OutputSchemaTag where
  | hello
  | gablorkenOutput
deriving Repr, DecidableEq

/-- The arguments a flow passes to `ai.generate`: optional explicit model
identifier (absent means the `ai` default model), the messages, an optional
output schema, and the list of tool names declared available. -/
structure GenerateRequest where
  model : Option String
  messages : List Message
  output_schema : Option OutputSchemaTag
  tools : List String
deriving Repr, DecidableEq

/-- The response of `ai.generate` as the flows consume it: its `message`
(the flows read `response.message.content[0].root.text`). -/
structure GenerateResponse where
  message : Message
deriving Repr, DecidableEq

/-- Python exceptions the sample can raise or propagate. -/
inductive PyErr where
  /-- `NameError`: an unbound name was referenced (e.g. a missing import). -/
  | nameError (name : String)
  /-- `IndexError`: `content[0]` on an empty content list. -/
  | indexError
  /-- `json.JSONDecodeError`: the text is not valid JSON. -/
  | jsonDecodeError (source : String)
  /-- pydantic `ValidationError`: JSON does not match the declared schema. -/
  | validationError (schema : String)
  /-- any failure raised by the underlying generate call (network, backend). -/
  | backendError (message : String)
deriving Repr, DecidableEq

/-! ## Output schemas and the tool (hello.py lines 58-73) -/

/-- `HelloSchema` (lines 58-60). -/
structure HelloSchema where
  text : String
  receiver : String
deriving Repr, DecidableEq

/-- `GablorkenOutputSchema` (lines 67-68). -/
structure GablorkenOutputSchema where
  result : Int
deriving Repr, DecidableEq

/-- `gablorken_tool` (lines 71-73): the pure tool function. -/
def gablorken_tool (input : Int) : Int :=
  input * 3 - 5

/-- A registered tool: name, description, and the pure function. -/
structure ToolDefinition where
  name : String
  description : String
  fn : Int → Int

/-- The `@ai.tool('calculates a gablorken')` registration of
`gablorken_tool`; the registered name is the function's name. -/
def gablorken_tool_def : ToolDefinition :=
  { name := "gablorken_tool",
    description := "calculates a gablorken",
    fn := gablorken_tool }

/-! ## Module scope (hello.py lines 17-26 and the module-level bindings)

Python resolves a global name at use time against the module's namespace;
referencing a name that is neither imported nor defined raises `NameError`.
-/

/-- The names imported at hello.py lines 17-26.  Note: neither `json` nor
`asyncio` is imported anywhere in the module. -/
def moduleImports : List String :=
  [ "BaseModel",
    "Genkit",
    "Message", "Role", "TextPart",
    "Ollama", "ollama_name",
    "ModelDefinition", "OllamaAPITypes", "OllamaPluginParams" ]

/-- The names bound at module level by hello.py itself. -/
def moduleDefs : List String :=
  [ "GEMMA_MODEL", "MISTRAL_MODEL", "plugin_params", "ai",
    "HelloSchema", "on_chunk", "GablorkenOutputSchema",
    "gablorken_tool", "say_hi", "calculate_gablorken",
    "say_hi_constrained", "main" ]

/-- Every global name resolvable inside hello.py's functions. -/
def moduleScope : List String := moduleImports ++ moduleDefs

/-! ## JSON (Python stdlib `json`, referenced — but never imported — at
hello.py lines 123 and 149)

Modelled from the Python standard library's `json.loads`: parse the string
as a JSON document and fail with `JSONDecodeError` otherwise.  Restrictions
of the model, irrelevant to the strings this sample handles: numbers are
integers only (no floats, no exponents) and `\u` escapes are unsupported;
such inputs are reported as decode errors. -/

/-- A parsed JSON value. -/
inductive JsonValue where
  | null
  | bool (b : Bool)
  | num (n : Int)
  | str (s : String)
  | arr (xs : List JsonValue)
  | obj (fields : List (String × JsonValue))
deriving Repr

/-- The character `{` (written by code to keep string literals brace-free). -/
def lbrace : Char := Char.ofNat 123

/-- The character `}`. -/
def rbrace : Char := Char.ofNat 125

/-- Drop leading JSON whitespace. -/
def skipWs : List Char → List Char
  | [] => []
  | c :: cs =>
    if c = ' ' ∨ c = '\t' ∨ c = '\n' ∨ c = '\r' then skipWs cs else c :: cs

/-- The translation of a JSON string escape character. -/
def escapeChar (c : Char) : Option Char :=
  if c = '"' ∨ c = '\\' ∨ c = '/' then some c
  else if c = 'n' then some '\n'
  else if c = 't' then some '\t'
  else if c = 'r' then some '\r'
  else if c = 'b' then some (Char.ofNat 8)
  else if c = 'f' then some (Char.ofNat 12)
  else none

/-- Parse the body of a JSON string after the opening quote; returns the
string and the input after the closing quote. -/
def parseStringBody (acc : List Char) : List Char → Option (String × List Char)
  | [] => none
  | c :: cs =>
    if c = '"' then some (String.mk acc.reverse, cs)
    else if c = '\\' then
      match cs with
      | [] => none
      | e :: cs2 =>
        match escapeChar e with
        | some r => parseStringBody (r :: acc) cs2
        | none => none
    else parseStringBody (c :: acc) cs

/-- Consume a decimal digit run, accumulating its value. -/
def parseDigits (acc : Nat) (seen : Bool) : List Char → Option (Nat × List Char)
  | [] => if seen then some (acc, []) else none
  | c :: cs =>
    if c.isDigit then parseDigits (acc * 10 + (c.toNat - 48)) true cs
    else if seen then some (acc, c :: cs)
    else none

/-- Parse a JSON integer (an optional minus sign and a digit run). -/
def parseNumber (s : List Char) : Option (Int × List Char) :=
  match s with
  | c :: cs =>
    if c = '-' then
      (parseDigits 0 false cs).map (fun p => (-(p.1 : Int), p.2))
    else
      (parseDigits 0 false s).map (fun p => ((p.1 : Int), p.2))
  | [] => none

/-- Whether `pre` is an initial segment of `s`; returns the rest. -/
def dropLit : List Char → List Char → Option (List Char)
  | [], s => some s
  | p :: ps, c :: cs => if p = c then dropLit ps cs else none
  | _ :: _, [] => none

mutual

/-- Parse one JSON value from the front of the input. -/
def parseValue : Nat → List Char → Option (JsonValue × List Char)
  | 0, _ => none
  | fuel + 1, s =>
    match skipWs s with
    | [] => none
    | c :: cs =>
      if c = lbrace then parseObject fuel true [] cs
      else if c = '[' then parseArray fuel true [] cs
      else if c = '"' then
        (parseStringBody [] cs).map (fun p => (JsonValue.str p.1, p.2))
      else if c = '-' ∨ c.isDigit then
        (parseNumber (c :: cs)).map (fun p => (JsonValue.num p.1, p.2))
      else if c = 't' then
        (dropLit [ 'r', 'u', 'e' ] cs).map (fun r => (JsonValue.bool true, r))
      else if c = 'f' then
        (dropLit [ 'a', 'l', 's', 'e' ] cs).map (fun r => (JsonValue.bool false, r))
      else if c = 'n' then
        (dropLit [ 'u', 'l', 'l' ] cs).map (fun r => (JsonValue.null, r))
      else none

/-- Parse the members of a JSON object after the opening brace; `first` is
true before any member is read. -/
def parseObject : Nat → Bool → List (String × JsonValue) → List Char →
    Option (JsonValue × List Char)
  | 0, _, _, _ => none
  | fuel + 1, first, acc, s =>
    match skipWs s with
    | [] => none
    | c :: cs =>
      if c = rbrace ∧ first then some (JsonValue.obj acc.reverse, cs)
      else
        match
          (if first then some (c :: cs)
           else if c = ',' then some cs else none) with
        | none =>
          if c = rbrace then some (JsonValue.obj acc.reverse, cs) else none
        | some s2 =>
          match skipWs s2 with
          | [] => none
          | q :: qs =>
            if q = '"' then
              match parseStringBody [] qs with
              | none => none
              | some (key, rest) =>
                match skipWs rest with
                | ':' :: rest2 =>
                  match parseValue fuel rest2 with
                  | none => none
                  | some (v, rest3) =>
                    parseObject fuel false ((key, v) :: acc) rest3
                | _ => none
            else none

/-- Parse the elements of a JSON array after the opening bracket. -/
def parseArray : Nat → Bool → List JsonValue → List Char →
    Option (JsonValue × List Char)
  | 0, _, _, _ => none
  | fuel + 1, first, acc, s =>
    match skipWs s with
    | [] => none
    | c :: cs =>
      if c = ']' ∧ first then some (JsonValue.arr acc.reverse, cs)
      else
        match
          (if first then some (c :: cs)
           else if c = ',' then some cs
           else if c = ']' then none else none) with
        | none =>
          if c = ']' then some (JsonValue.arr acc.reverse, cs) else none
        | some s2 =>
          match parseValue fuel s2 with
          | none => none
          | some (v, rest) => parseArray fuel false (v :: acc) rest

end

/-- `json.loads`: parse a whole string as one JSON document. -/
def json_loads (s : String) : Except PyErr JsonValue :=
  match parseValue (s.length + 1) s.data with
  | some (v, rest) =>
    if skipWs rest = [] then Except.ok v
    else Except.error (PyErr.jsonDecodeError s)
  | none => Except.error (PyErr.jsonDecodeError s)

/-- JSON-object field lookup with Python `dict` semantics: a repeated key
keeps the last value. -/
def dictGet (fields : List (String × JsonValue)) (k : String) : Option JsonValue :=
  ((fields.filter (fun p => p.1 = k)).getLast?).map (fun p => p.2)

/-- pydantic `HelloSchema.model_validate`: requires an object with string
fields `text` and `receiver` (extra fields are ignored, pydantic's
default); anything else raises a `ValidationError`. -/
def HelloSchema.model_validate (j : JsonValue) : Except PyErr HelloSchema :=
  match j with
  | JsonValue.obj fields =>
    match dictGet fields "text", dictGet fields "receiver" with
    | some (JsonValue.str t), some (JsonValue.str r) =>
      Except.ok { text := t, receiver := r }
    | _, _ => Except.error (PyErr.validationError "HelloSchema")
  | _ => Except.error (PyErr.validationError "HelloSchema")

/-- pydantic `GablorkenOutputSchema.model_validate`: requires an object with
an integer field `result`. -/
def GablorkenOutputSchema.model_validate (j : JsonValue) :
    Except PyErr GablorkenOutputSchema :=
  match j with
  | JsonValue.obj fields =>
    match dictGet fields "result" with
    | some (JsonValue.num n) => Except.ok { result := n }
    | _ => Except.error (PyErr.validationError "GablorkenOutputSchema")
  | _ => Except.error (PyErr.validationError "GablorkenOutputSchema")

/-! ## The effect monad of a flow

A flow's observable behavior, given a backend: the generate requests it
sent (in order), the lines it printed (in order), and either its return
value or the Python exception it raised. -/

/-- The model backend: answer one generate request or raise a failure. -/
def Backend : Type := GenerateRequest → Except PyErr GenerateResponse

/-- A computation that may send generate requests, print, and raise. -/
def GenM (α : Type) : Type :=
  Backend → List GenerateRequest × List String × Except PyErr α

/-- Return a value, no effects. -/
def GenM.pureG (a : α) : GenM α := fun _ => ([], [], Except.ok a)

/-- Sequence two computations; a raised exception short-circuits, effects
accumulate in order. -/
def GenM.bindG (x : GenM α) (f : α → GenM β) : GenM β := fun b =>
  match x b with
  | (reqs, outs, Except.error e) => (reqs, outs, Except.error e)
  | (reqs, outs, Except.ok a) =>
    match f a b with
    | (reqs2, outs2, r) => (reqs ++ reqs2, outs ++ outs2, r)

/-- `await ai.generate(...)`: one outbound call to the backend, recording
the request; the backend's failure, if any, is raised unchanged. -/
def generate (req : GenerateRequest) : GenM GenerateResponse :=
  fun b => ([req], [], b req)

/-- `print(...)`: record one printed line. -/
def printLine (s : String) : GenM Unit := fun _ => ([], [s], Except.ok ())

/-- Raise the error of a fallible pure step (indexing, JSON, validation). -/
def liftExcept (x : Except PyErr α) : GenM α := fun _ => ([], [], x)

/-- Python global-name resolution: referencing a name not bound in the
module scope raises `NameError`. -/
def resolveName (n : String) : GenM Unit :=
  fun _ =>
    ([], [],
      if moduleScope.contains n then Except.ok ()
      else Except.error (PyErr.nameError n))

/-- `response.message.content[0].root.text`: the first content part's text;
`content[0]` on an empty list raises `IndexError`. -/
def firstContentText (response : GenerateResponse) : Except PyErr String :=
  match response.message.content with
  | [] => Except.error PyErr.indexError
  | p :: _ => Except.ok p.text

/-! ## The three flows (hello.py lines 76-149) and main (152-159) -/

/-- The request `say_hi` sends (lines 86-96): model gemma2 explicitly, one
user message whose only content part is `'hi ' + hi_input`, no output
schema, no tools. -/
def sayHiRequest (hi_input : String) : GenerateRequest :=
  { model := some (ollama_name GEMMA_MODEL),
    messages :=
      [ { role := Role.user,
          content := [ { text := "hi " ++ hi_input } ] } ],
    output_schema := none,
    tools := [] }

/-- `say_hi` (lines 76-96): one generate call, raw result returned. -/
def say_hi (hi_input : String) : GenM GenerateResponse :=
  generate (sayHiRequest hi_input)

/-- The request `calculate_gablorken` sends (lines 109-121): one user
message `f'run "gablorken_tool" for {value}'`, output schema
`GablorkenOutputSchema`, model mistral-nemo, tools `['gablorken_tool']`. -/
def calculateGablorkenRequest (value : Int) : GenerateRequest :=
  { model := some (ollama_name MISTRAL_MODEL),
    messages :=
      [ { role := Role.user,
          content :=
            [ { text := "run \"gablorken_tool\" for " ++ toString value } ] } ],
    output_schema := some OutputSchemaTag.gablorkenOutput,
    tools := [ "gablorken_tool" ] }

/-- `calculate_gablorken` (lines 99-123): generate, read the first content
part's text, then evaluate `GablorkenOutputSchema.model_validate(
json.loads(message_raw))` — which first resolves the global name `json`. -/
def calculate_gablorken (value : Int) : GenM GablorkenOutputSchema :=
  GenM.bindG (generate (calculateGablorkenRequest value)) (fun response =>
  GenM.bindG (liftExcept (firstContentText response)) (fun message_raw =>
  GenM.bindG ( resolveName "json") (fun _ =>
  GenM.bindG (liftExcept (json_loads message_raw)) (fun parsed =>
  liftExcept (GablorkenOutputSchema.model_validate parsed)))))

/-- The request `say_hi_constrained` sends (lines 137-147): no explicit
model (the `ai` default applies), one user message `'hi ' + hi_input`,
output schema `HelloSchema`, no tools. -/
def sayHiConstrainedRequest (hi_input : String) : GenerateRequest :=
  { model := none,
    messages :=
      [ { role := Role.user,
          content := [ { text := "hi " ++ hi_input } ] } ],
    output_schema := some OutputSchemaTag.hello,
    tools := [] }

/-- `say_hi_constrained` (lines 126-149): generate, read the first content
part's text, then evaluate `HelloSchema.model_validate(
json.loads(message_raw))` — which first resolves the global name `json`. -/
def say_hi_constrained (hi_input : String) : GenM HelloSchema :=
  GenM.bindG (generate (sayHiConstrainedRequest hi_input)) (fun response =>
  GenM.bindG (liftExcept (firstContentText response)) (fun message_raw =>
  GenM.bindG ( resolveName "json") (fun _ =>
  GenM.bindG (liftExcept (json_loads message_raw)) (fun parsed =>
  liftExcept (HelloSchema.model_validate parsed)))))

/-- `main` (lines 152-155): run the three flows strictly in order, printing
each result as it completes. -/
def main : GenM Unit :=
  GenM.bindG (say_hi "John Doe") (fun r1 =>
  GenM.bindG (printLine (reprStr r1)) (fun _ =>
  GenM.bindG (say_hi_constrained "John Doe") (fun r2 =>
  GenM.bindG (printLine (reprStr r2)) (fun _ =>
  GenM.bindG (calculate_gablorken 3) (fun r3 =>
  printLine (reprStr r3))))))

/-- The `if __name__ == '__main__':` block (lines 158-159):
`asyncio.run(main())` resolves the global name `asyncio` before anything
runs. -/
def scriptEntry : GenM Unit :=
  GenM.bindG ( resolveName "asyncio") (fun _ => main)

/-! ## Concrete backends used to exercise the flows -/

/-- A backend whose reply's only text content part is always `s`. -/
def constBackend (s : String) : Backend :=
  fun _ =>
    Except.ok { message := { role := Role.model, content := [ { text := s } ] } }

/-- A backend that always fails with `e`. -/
def errorBackend (e : PyErr) : Backend := fun _ => Except.error e

/-- The backend response text of the happy-path constrained-hello example. -/
def helloGoodText : String :=
  "\x7b\"text\": \"hi John Doe\", \"receiver\": \"John Doe\"\x7d"

/-- The backend response text of the happy-path gablorken example. -/
def gablorkenGoodText : String := "\x7b\"result\": 4\x7d"

/-! ## Run-shape lemmas -/

/-- Complete description of one `say_hi_constrained` run: one request is
sent, nothing is printed, and the result is the backend's error, an
`IndexError` on an empty reply, or — since `json` is not in the module
scope — a `NameError` on any reply with a first content part. -/
theorem say_hi_constrained_run (b : Backend) (x : String) :
    say_hi_constrained x b =
      ([sayHiConstrainedRequest x], [],
        match b (sayHiConstrainedRequest x) with
        | Except.error e => Except.error e
        | Except.ok resp =>
          match resp.message.content with
          | [] => Except.error PyErr.indexError
          | _ :: _ => Except.error (PyErr.nameError "json")) := by
  unfold say_hi_constrained GenM.bindG generate liftExcept resolveName
    firstContentText
  cases hb : b (sayHiConstrainedRequest x) with
  | error e => rfl
  | ok resp =>
    obtain ⟨⟨role, content⟩⟩ := resp
    cases content with
    | nil => rfl
    | cons p rest => rfl

/-- Complete description of one `calculate_gablorken` run, analogous to
`say_hi_constrained_run`. -/
theorem calculate_gablorken_run (b : Backend) (v : Int) :
    calculate_gablorken v b =
      ([calculateGablorkenRequest v], [],
        match b (calculateGablorkenRequest v) with
        | Except.error e => Except.error e
        | Except.ok resp =>
          match resp.message.content with
          | [] => Except.error PyErr.indexError
          | _ :: _ => Except.error (PyErr.nameError "json")) := by
  unfold calculate_gablorken GenM.bindG generate liftExcept resolveName
    firstContentText
  cases hb : b (calculateGablorkenRequest v) with
  | error e => rfl
  | ok resp =>
    obtain ⟨⟨role, content⟩⟩ := resp
    cases content with
    | nil => rfl
    | cons p rest => rfl

/-! ## Claim theorems -/

/-- C1: for every integer input `n`, `gablorken_tool` returns `n * 3 - 5`;
in particular it returns 4 for input 3, -5 for input 0, and -8 for
input -1. -/
theorem gablorken_tool_spec (n : Int) :
    gablorken_tool n = n * 3 - 5 ∧
    gablorken_tool 3 = 4 ∧
    gablorken_tool 0 = -5 ∧
    gablorken_tool (-1) = -8 :=
  ⟨rfl, by decide, by decide, by decide⟩

/-- C2: for every backend and every input `text`, `say_hi text` sends
exactly one request, whose only message is a user message whose only text
content is `"hi " ++ text`, addressed explicitly to gemma2 — the first
model of the plugin configuration — with no output schema and no tool
list; it prints nothing and returns the backend's raw generation result
unparsed. -/
theorem say_hi_spec (b : Backend) (text : String) :
    say_hi text b = ([sayHiRequest text], [], b (sayHiRequest text)) ∧
    (sayHiRequest text).messages =
      [ { role := Role.user, content := [ { text := "hi " ++ text } ] } ] ∧
    (sayHiRequest text).model = some (ollama_name GEMMA_MODEL) ∧
    plugin_params.models.head? =
      some { name := GEMMA_MODEL, api_type := OllamaAPITypes.chat } ∧
    (sayHiRequest text).output_schema = none ∧
    (sayHiRequest text).tools = [] :=
  ⟨rfl, rfl, rfl, rfl, rfl, rfl⟩

/-- C3: evaluation of `say_hi_constrained "John Doe"` against a backend
whose reply text is exactly the good JSON document: the code raises
`NameError: name 'json' is not defined` instead of returning the parsed
`HelloSchema` record — even though the parse-and-validate step it was
meant to perform succeeds on that text with
`text = "hi John Doe"` and `receiver = "John Doe"`. -/
theorem say_hi_constrained_good_json_raises_name_error :
    (say_hi_constrained "John Doe" (constBackend helloGoodText)).2.2 =
      Except.error (PyErr.nameError "json") ∧
    (json_loads helloGoodText).bind HelloSchema.model_validate =
      Except.ok { text := "hi John Doe", receiver := "John Doe" } :=
  ⟨rfl, rfl⟩

/-- C4: evaluation of `calculate_gablorken 3` against a backend whose reply
text is the good JSON document: the request it sends names
`gablorken_tool` with the value 3, declares that tool available, requests
`GablorkenOutputSchema` output and addresses mistral-nemo — the second
model of the plugin configuration (and the backend's reply matches the
tool's real output `gablorken_tool 3 = 4`, which the intended
parse-and-validate step accepts as `result = 4`); but the code raises
`NameError: name 'json' is not defined` instead of returning that
record. -/
theorem calculate_gablorken_good_json_raises_name_error :
    (calculate_gablorken 3 (constBackend gablorkenGoodText)).1 =
      [calculateGablorkenRequest 3] ∧
    (calculateGablorkenRequest 3).messages =
      [ { role := Role.user,
          content := [ { text := "run \"gablorken_tool\" for 3" } ] } ] ∧
    (calculateGablorkenRequest 3).tools = [gablorken_tool_def.name] ∧
    (calculateGablorkenRequest 3).output_schema =
      some OutputSchemaTag.gablorkenOutput ∧
    (calculateGablorkenRequest 3).model = some (ollama_name MISTRAL_MODEL) ∧
    plugin_params.models[1]? =
      some { name := MISTRAL_MODEL, api_type := OllamaAPITypes.chat } ∧
    gablorken_tool 3 = 4 ∧
    (json_loads gablorkenGoodText).bind GablorkenOutputSchema.model_validate =
      Except.ok { result := 4 } ∧
    (calculate_gablorken 3 (constBackend gablorkenGoodText)).2.2 =
      Except.error (PyErr.nameError "json") :=
  ⟨rfl, rfl, rfl, rfl, rfl, rfl, by decide, rfl, rfl⟩

/-- C5: evaluation of `say_hi_constrained "John Doe"` against a backend
whose reply text `"not json"` is not valid JSON: the code raises
`NameError: name 'json' is not defined` — not the `JSONDecodeError` that
`json.loads` would raise on that text — and returns no `HelloSchema`
record. -/
theorem say_hi_constrained_malformed_json_raises_name_error :
    json_loads "not json" =
      Except.error (PyErr.jsonDecodeError "not json") ∧
    (say_hi_constrained "John Doe" (constBackend "not json")).2.2 =
      Except.error (PyErr.nameError "json") ∧
    ∀ r : HelloSchema,
      (say_hi_constrained "John Doe" (constBackend "not json")).2.2 ≠
        Except.ok r :=
  ⟨rfl, rfl, fun _ h => Except.noConfusion h⟩

/-- C6: evaluation of the script entry point: for every backend,
`asyncio.run(main())` raises `NameError: name 'asyncio' is not defined`
before any backend call is made or anything is printed; and even `main()`
itself, run against any always-replying backend, performs only the
`say_hi` and `say_hi_constrained` backend calls, prints only the first
result, and then raises `NameError: name 'json' is not defined` — never
reaching `calculate_gablorken`. -/
theorem script_entry_raises_name_error :
    (∀ b : Backend,
      scriptEntry b = ([], [], Except.error (PyErr.nameError "asyncio"))) ∧
    (∀ s : String,
      (main (constBackend s)).1 =
        [sayHiRequest "John Doe", sayHiConstrainedRequest "John Doe"] ∧
      (main (constBackend s)).2.1.length = 1 ∧
      (main (constBackend s)).2.2 = Except.error (PyErr.nameError "json")) :=
  ⟨fun _ => rfl, fun _ => ⟨rfl, rfl, rfl⟩⟩

/-- C7: each single invocation of any of the three flows sends exactly one
generate request to the backend — its own request, whatever the backend
does — with no caching and no batching. -/
theorem flows_single_generate_call (b : Backend) (x : String) (v : Int) :
    (say_hi x b).1 = [sayHiRequest x] ∧
    (say_hi_constrained x b).1 = [sayHiConstrainedRequest x] ∧
    (calculate_gablorken v b).1 = [calculateGablorkenRequest v] :=
  ⟨rfl,
   by rw [say_hi_constrained_run],
   by rw [calculate_gablorken_run]⟩

/-- C8: for every failure `e` raised by the underlying generate call, each
of the three flows raises exactly `e` to its caller: no flow catches,
retries, or transforms the exception, and the failed request is the only
one sent. -/
theorem flows_propagate_backend_error (e : PyErr) (x : String) (v : Int) :
    say_hi x (errorBackend e) =
      ([sayHiRequest x], [], Except.error e) ∧
    say_hi_constrained x (errorBackend e) =
      ([sayHiConstrainedRequest x], [], Except.error e) ∧
    calculate_gablorken v (errorBackend e) =
      ([calculateGablorkenRequest v], [], Except.error e) :=
  ⟨rfl, rfl, rfl⟩

/-- C9: `gablorken_tool` is strictly monotone and injective on the
integers. -/
theorem gablorken_tool_strict_mono_injective (a b : Int) :
    (a < b → gablorken_tool a < gablorken_tool b) ∧
    (gablorken_tool a = gablorken_tool b → a = b) := by
  constructor
  · intro h
    simp only [gablorken_tool]
    omega
  · intro h
    simp only [gablorken_tool] at h
    omega

/-- Witness for C9 at the concrete inputs 1, 2 and 1, 1. -/
theorem gablorken_tool_strict_mono_injective_witness :
    gablorken_tool 1 < gablorken_tool 2 ∧ (1 : Int) = 1 :=
  ⟨(gablorken_tool_strict_mono_injective 1 2).1 (by decide),
   (gablorken_tool_strict_mono_injective 1 1).2 (by decide)⟩

/-- C10: neither `json` nor `asyncio` is in the module scope of hello.py;
consequently, for every backend reply — including ones whose first text
content part is valid JSON matching the declared schema —
`say_hi_constrained` and `calculate_gablorken` raise
`NameError: name 'json' is not defined` at the parsing step, the script
entry point raises `NameError: name 'asyncio' is not defined` for every
backend, and neither flow ever returns a parsed record under any
backend. -/
theorem missing_imports_cause_name_error :
    moduleScope.contains "json" = false ∧
    moduleScope.contains "asyncio" = false ∧
    (∀ s x : String,
      (say_hi_constrained x (constBackend s)).2.2 =
        Except.error (PyErr.nameError "json")) ∧
    (∀ (s : String) (v : Int),
      (calculate_gablorken v (constBackend s)).2.2 =
        Except.error (PyErr.nameError "json")) ∧
    (∀ b : Backend,
      scriptEntry b = ([], [], Except.error (PyErr.nameError "asyncio"))) ∧
    (∀ (b : Backend) (x : String) (r : HelloSchema),
      (say_hi_constrained x b).2.2 ≠ Except.ok r) ∧
    (∀ (b : Backend) (v : Int) (r : GablorkenOutputSchema),
      (calculate_gablorken v b).2.2 ≠ Except.ok r) := by
  refine ⟨by decide, by decide, fun s x => rfl, fun s v => rfl, fun b => rfl,
    ?_, ?_⟩
  · intro b x r h
    rw [say_hi_constrained_run] at h
    revert h
    cases b (sayHiConstrainedRequest x) with
    | error e => exact fun h => Except.noConfusion h
    | ok resp =>
      obtain ⟨⟨role, content⟩⟩ := resp
      cases content with
      | nil => exact fun h => Except.noConfusion h
      | cons p rest => exact fun h => Except.noConfusion h
  · intro b v r h
    rw [calculate_gablorken_run] at h
    revert h
    cases b (calculateGablorkenRequest v) with
    | error e => exact fun h => Except.noConfusion h
    | ok resp =>
      obtain ⟨⟨role, content⟩⟩ := resp
      cases content with
      | nil => exact fun h => Except.noConfusion h
      | cons p rest => exact fun h => Except.noConfusion h

end Hello
